import Mathlib

/-!
Shallow embedding of `api/index.py` from the serverless-inv-api repository:
a Vercel serverless handler exposing three endpoints over one Postgres table
`servers(name PK, ip, location, status, last_report)`.

Modelling choices:
* A request body is modelled by the outcome of `json.loads`: `none` stands for
  a `json.JSONDecodeError` (malformed JSON, or an empty/missing body whose
  transport-provided string fails to parse), `some j` for the parsed value.
* Python exceptions relevant to the handlers are an explicit `PyError` type;
  `try/except` blocks become `Except PyError` computations with an explicit
  catch function, mirroring the except-clause order of the source.
* The database is a list of rows; `psycopg2` connection and statement
  execution are abstracted by oracles in `World` (`connOk`, `execOk`) and the
  `DATABASE_URL` configuration by `World.cfg`.
* `datetime.now()` is the abstract tick `World.now : Nat`; `isoformat` is its
  abstract injective string rendering (the exact ISO-8601 text is produced by
  the Python standard library, outside this repository).
-/

/-- JSON values as produced by `json.loads`: null, booleans, numbers, strings,
arrays, and objects (field lists; `json.loads` yields dicts with unique keys). -/
inductive Json where
  | null : Json
  | bool : Bool → Json
  | num : Int → Json
  | str : String → Json
  | arr : List Json → Json
  | obj : List (String × Json) → Json

mutual

/-- Boolean equality on JSON values (Python `==` between `json.loads` results). -/
def jsonBeq : Json → Json → Bool
  | Json.null, Json.null => true
  | Json.bool a, Json.bool b => a == b
  | Json.num a, Json.num b => a == b
  | Json.str a, Json.str b => a == b
  | Json.arr xs, Json.arr ys => jsonBeqList xs ys
  | Json.obj xs, Json.obj ys => jsonBeqFields xs ys
  | _, _ => false

/-- Pointwise equality of JSON arrays. -/
def jsonBeqList : List Json → List Json → Bool
  | [], [] => true
  | x :: xs, y :: ys => jsonBeq x y && jsonBeqList xs ys
  | _, _ => false

/-- Pointwise equality of JSON object field lists. -/
def jsonBeqFields : List (String × Json) → List (String × Json) → Bool
  | [], [] => true
  | (k1, v1) :: xs, (k2, v2) :: ys => k1 == k2 && jsonBeq v1 v2 && jsonBeqFields xs ys
  | _, _ => false

end

mutual

theorem jsonBeq_refl : ∀ j : Json, jsonBeq j j = true
  | Json.null => rfl
  | Json.bool b => by cases b <;> rfl
  | Json.num n => by simp [jsonBeq]
  | Json.str s => by simp [jsonBeq]
  | Json.arr xs => jsonBeqList_refl xs
  | Json.obj fs => jsonBeqFields_refl fs

theorem jsonBeqList_refl : ∀ xs : List Json, jsonBeqList xs xs = true
  | [] => rfl
  | x :: xs => by
      simp only [jsonBeqList, Bool.and_eq_true]
      exact ⟨jsonBeq_refl x, jsonBeqList_refl xs⟩

theorem jsonBeqFields_refl : ∀ fs : List (String × Json), jsonBeqFields fs fs = true
  | [] => rfl
  | (k, v) :: fs => by
      simp only [jsonBeqFields, Bool.and_eq_true, beq_self_eq_true, true_and]
      exact ⟨jsonBeq_refl v, jsonBeqFields_refl fs⟩

end

mutual

theorem jsonBeq_eq : ∀ a b : Json, jsonBeq a b = true → a = b
  | Json.null, Json.null, _ => rfl
  | Json.bool a, Json.bool b, h => by
      simp only [jsonBeq, beq_iff_eq] at h; rw [h]
  | Json.num a, Json.num b, h => by
      simp only [jsonBeq, beq_iff_eq] at h; rw [h]
  | Json.str a, Json.str b, h => by
      simp only [jsonBeq, beq_iff_eq] at h; rw [h]
  | Json.arr xs, Json.arr ys, h => by
      rw [jsonBeqList_eq xs ys h]
  | Json.obj xs, Json.obj ys, h => by
      rw [jsonBeqFields_eq xs ys h]
  | Json.null, Json.bool _, h => by simp [jsonBeq] at h
  | Json.null, Json.num _, h => by simp [jsonBeq] at h
  | Json.null, Json.str _, h => by simp [jsonBeq] at h
  | Json.null, Json.arr _, h => by simp [jsonBeq] at h
  | Json.null, Json.obj _, h => by simp [jsonBeq] at h
  | Json.bool _, Json.null, h => by simp [jsonBeq] at h
  | Json.bool _, Json.num _, h => by simp [jsonBeq] at h
  | Json.bool _, Json.str _, h => by simp [jsonBeq] at h
  | Json.bool _, Json.arr _, h => by simp [jsonBeq] at h
  | Json.bool _, Json.obj _, h => by simp [jsonBeq] at h
  | Json.num _, Json.null, h => by simp [jsonBeq] at h
  | Json.num _, Json.bool _, h => by simp [jsonBeq] at h
  | Json.num _, Json.str _, h => by simp [jsonBeq] at h
  | Json.num _, Json.arr _, h => by simp [jsonBeq] at h
  | Json.num _, Json.obj _, h => by simp [jsonBeq] at h
  | Json.str _, Json.null, h => by simp [jsonBeq] at h
  | Json.str _, Json.bool _, h => by simp [jsonBeq] at h
  | Json.str _, Json.num _, h => by simp [jsonBeq] at h
  | Json.str _, Json.arr _, h => by simp [jsonBeq] at h
  | Json.str _, Json.obj _, h => by simp [jsonBeq] at h
  | Json.arr _, Json.null, h => by simp [jsonBeq] at h
  | Json.arr _, Json.bool _, h => by simp [jsonBeq] at h
  | Json.arr _, Json.num _, h => by simp [jsonBeq] at h
  | Json.arr _, Json.str _, h => by simp [jsonBeq] at h
  | Json.arr _, Json.obj _, h => by simp [jsonBeq] at h
  | Json.obj _, Json.null, h => by simp [jsonBeq] at h
  | Json.obj _, Json.bool _, h => by simp [jsonBeq] at h
  | Json.obj _, Json.num _, h => by simp [jsonBeq] at h
  | Json.obj _, Json.str _, h => by simp [jsonBeq] at h
  | Json.obj _, Json.arr _, h => by simp [jsonBeq] at h

theorem jsonBeqList_eq : ∀ xs ys : List Json, jsonBeqList xs ys = true → Json.arr xs = Json.arr ys
  | [], [], _ => rfl
  | x :: xs, y :: ys, h => by
      simp only [jsonBeqList, Bool.and_eq_true] at h
      have h1 := jsonBeq_eq x y h.1
      have h2 := jsonBeqList_eq xs ys h.2
      simp only [Json.arr.injEq, List.cons.injEq] at h2 ⊢
      exact ⟨h1, h2⟩
  | [], _ :: _, h => by simp [jsonBeqList] at h
  | _ :: _, [], h => by simp [jsonBeqList] at h

theorem jsonBeqFields_eq : ∀ xs ys : List (String × Json),
    jsonBeqFields xs ys = true → Json.obj xs = Json.obj ys
  | [], [], _ => rfl
  | (k1, v1) :: xs, (k2, v2) :: ys, h => by
      simp only [jsonBeqFields, Bool.and_eq_true, beq_iff_eq] at h
      have h1 := jsonBeq_eq v1 v2 h.1.2
      have h2 := jsonBeqFields_eq xs ys h.2
      simp only [Json.obj.injEq, List.cons.injEq, Prod.mk.injEq] at h2 ⊢
      exact ⟨⟨h.1.1, h1⟩, h2⟩
  | [], _ :: _, h => by simp [jsonBeqFields] at h
  | _ :: _, [], h => by simp [jsonBeqFields] at h

end

instance : DecidableEq Json := fun a b =>
  if h : jsonBeq a b = true then isTrue (jsonBeq_eq a b h)
  else isFalse (fun e => h (e ▸ jsonBeq_refl a))

instance : BEq Json := ⟨jsonBeq⟩

instance : LawfulBEq Json where
  eq_of_beq h := jsonBeq_eq _ _ h
  rfl := jsonBeq_refl _

/-- Python exceptions that the handlers in `api/index.py` can raise or catch. -/
inductive PyError where
  | jsonDecodeError
  | keyError
  | typeError
  | attributeError
  | indexError
  | valueError
  | operationalError
  | dbError
deriving DecidableEq

/-- One row of the `servers` table. Column values other than `last_report` are
kept as the JSON values the upsert statement received (psycopg2 adapts the
Python values of the parsed payload); `last_report` is the abstract timestamp. -/
structure Row where
  name : Json
  ip : Json
  location : Json
  status : Json
  last_report : Option Nat
deriving DecidableEq

/-- The per-request world: configuration, store oracles, clock, and table. -/
structure World where
  cfg : Option String
  connOk : Bool
  execOk : Bool
  now : Nat
  db : List Row
deriving DecidableEq

/-- The response envelope returned by every handler in `api/index.py`:
`statusCode`, a `json.dumps`-serialized `body` (kept as the JSON value passed
to `json.dumps`), and the headers dict. -/
structure Response where
  statusCode : Nat
  body : Json
  headers : List (String × String)
deriving DecidableEq

/-- The uniform response literal of the source: status code, JSON body, and
the single header `Content-Type: application/json`. -/
def mkJsonResponse (code : Nat) (payload : Json) : Response :=
  { statusCode := code, body := payload,
    headers := [("Content-Type", "application/json")] }

/-- Shorthand for the error payloads `json.dumps({"error": msg})`. -/
def errPayload (msg : String) : Json := Json.obj [("error", Json.str msg)]

/-- Shorthand for the success payloads `json.dumps({"message": msg})`. -/
def msgPayload (msg : String) : Json := Json.obj [("message", Json.str msg)]

mutual

/-- Python `repr()` of a parsed-JSON value (strings gain quotes). -/
def pyRepr : Json → String
  | Json.str s => "\x27" ++ s ++ "\x27"
  | Json.null => "None"
  | Json.bool true => "True"
  | Json.bool false => "False"
  | Json.num n => toString n
  | Json.arr xs => "[" ++ pyReprList xs ++ "]"
  | Json.obj fs => "\x7b" ++ pyReprFields fs ++ "\x7d"

/-- Comma-separated `repr` of JSON array elements. -/
def pyReprList : List Json → String
  | [] => ""
  | [x] => pyRepr x
  | x :: y :: rest => pyRepr x ++ ", " ++ pyReprList (y :: rest)

/-- Comma-separated `repr` of JSON object fields. -/
def pyReprFields : List (String × Json) → String
  | [] => ""
  | [(k, v)] => "\x27" ++ k ++ "\x27: " ++ pyRepr v
  | (k, v) :: kv :: rest => "\x27" ++ k ++ "\x27: " ++ pyRepr v ++ ", " ++ pyReprFields (kv :: rest)

end

/-- Python `str()` of a parsed-JSON value, as interpolated by the f-strings of
the source; it coincides with `repr` except on strings, which render bare. -/
def pyStr : Json → String
  | Json.str s => s
  | j => pyRepr j

/-- Python `key in server_data` on a parsed-JSON value: key membership for a
dict, element membership for a list, substring test for a string, and a
`TypeError` for values that are not containers (numbers, booleans, `None`). -/
def jsonContains (j : Json) (key : String) : Except PyError Bool :=
  match j with
  | Json.obj fields => Except.ok (fields.any (fun kv => kv.1 == key))
  | Json.arr xs => Except.ok (xs.any (fun x => x == Json.str key))
  | Json.str s => Except.ok (key.isEmpty || (s.splitOn key).length ≥ 2)
  | _ => Except.error PyError.typeError

/-- Python `server_data[key]`: dict lookup (raising `KeyError` when absent),
and a `TypeError` for every non-dict value (string indices on lists/strings,
unsubscriptable numbers/booleans/`None`). -/
def jsonSubscript (j : Json) (key : String) : Except PyError Json :=
  match j with
  | Json.obj fields =>
      match fields.find? (fun kv => kv.1 == key) with
      | some kv => Except.ok kv.2
      | none => Except.error PyError.keyError
  | _ => Except.error PyError.typeError

/-- Python `server_data.get(key, dflt)`: dict lookup with default, and an
`AttributeError` for every non-dict value (no `.get` method). -/
def jsonGet (j : Json) (key : String) (dflt : Json) : Except PyError Json :=
  match j with
  | Json.obj fields =>
      match fields.find? (fun kv => kv.1 == key) with
      | some kv => Except.ok kv.2
      | none => Except.ok dflt
  | _ => Except.error PyError.attributeError

/-- `get_db_connection()`: raises `ValueError` when `DATABASE_URL` is unset,
re-raises the `psycopg2.OperationalError` when connecting fails, and returns
the connection (modelled as `Unit`) otherwise. -/
def get_db_connection (cfg : Option String) (connOk : Bool) : Except PyError Unit :=
  match cfg with
  | none => Except.error PyError.valueError
  | some _ => if connOk then Except.ok () else Except.error PyError.operationalError

/-- `create_servers_table()`: best-effort startup step that swallows every
error; returns whether the `CREATE TABLE IF NOT EXISTS` statement was executed
and committed (the process continues either way). -/
def create_servers_table (cfg : Option String) (connOk execOk : Bool) : Bool :=
  match get_db_connection cfg connOk with
  | Except.error _ => false
  | Except.ok _ => execOk

/-- The `INSERT ... ON CONFLICT (name) DO UPDATE SET ip, location, status,
last_report` statement: one atomic write that inserts the row, or, when a row
with the same primary key exists, overwrites its non-key columns. -/
def upsertRow (db : List Row) (r : Row) : List Row :=
  if db.any (fun x => x.name == r.name) then
    db.map (fun x =>
      if x.name == r.name then
        { x with ip := r.ip, location := r.location, status := r.status,
                 last_report := r.last_report }
      else x)
  else db ++ [r]

/-- The `try:` block of `handle_report` (lines 111-148 of `api/index.py`):
parse, required-field check, connection, parameter tuple construction, the
upsert statement, commit, and the 200 response. -/
def reportBody (body : Option Json) (w : World) :
    Except PyError (Response × List Row) := do
  let server_data ← match body with
    | none => Except.error PyError.jsonDecodeError
    | some j => Except.ok j
  let hasName ← jsonContains server_data "name"
  let hasIp ← jsonContains server_data "ip"
  if !hasName || !hasIp then
    return (mkJsonResponse 400 (errPayload "Missing required fields (name, ip)"), w.db)
  let _ ← get_db_connection w.cfg w.connOk
  let nameV ← jsonSubscript server_data "name"
  let ipV ← jsonSubscript server_data "ip"
  let locV ← jsonGet server_data "location" (Json.str "Unknown")
  let statusV ← jsonGet server_data "status" (Json.str "Online")
  if !w.execOk then
    Except.error PyError.dbError
  else
    let db2 := upsertRow w.db
      { name := nameV, ip := ipV, location := locV, status := statusV,
        last_report := some w.now }
    return (mkJsonResponse 200
      (msgPayload ("Server " ++ pyStr nameV ++ " data updated successfully.")), db2)

/-- `handle_report`: the try block above with the two except clauses of the
source, `except (json.JSONDecodeError, KeyError)` giving 400 and
`except (Exception, psycopg2.Error)` giving 500. -/
def handle_report (body : Option Json) (w : World) : Response × List Row :=
  match reportBody body w with
  | Except.ok r => r
  | Except.error PyError.jsonDecodeError =>
      (mkJsonResponse 400 (errPayload "Invalid JSON payload or missing fields."), w.db)
  | Except.error PyError.keyError =>
      (mkJsonResponse 400 (errPayload "Invalid JSON payload or missing fields."), w.db)
  | Except.error _ =>
      (mkJsonResponse 500 (errPayload "Failed to update server data due to a database error."), w.db)

example : handle_report (some (Json.obj [("name", Json.str "srv1"), ("ip", Json.str "10.0.0.5")]))
    { cfg := some "postgres://u", connOk := true, execOk := true, now := 7, db := [] } =
    (mkJsonResponse 200 (msgPayload "Server srv1 data updated successfully."),
     [{ name := Json.str "srv1", ip := Json.str "10.0.0.5", location := Json.str "Unknown",
        status := Json.str "Online", last_report := some 7 }]) := by decide

example : handle_report (some (Json.num 5))
    { cfg := some "postgres://u", connOk := true, execOk := true, now := 7, db := [] } =
    (mkJsonResponse 500 (errPayload "Failed to update server data due to a database error."), []) := by
  decide

/-- Test whether the first character list is a prefix of the second
(the lookahead used to model Python `str.split` and `str.startswith`). -/
def startsSeq : List Char → List Char → Bool
  | [], _ => true
  | _ :: _, [] => false
  | a :: as, b :: bs => a == b && startsSeq as bs

/-- Python `path.startswith(pre)`. -/
def pyStartsWith (path pre : String) : Bool := startsSeq pre.data path.data

/-- Scanner of Python `s.split(sep)` for a non-empty separator: scans left to
right over the characters of `s`; `skip` counts separator characters still to
be consumed after a match. At a match the current group ends and a new group
begins after the separator. -/
def pySplitGo (sep : List Char) : List Char → Nat → List (List Char)
  | [], _ => [[]]
  | _ :: rest, k + 1 => pySplitGo sep rest k
  | c :: rest, 0 =>
    if !sep.isEmpty && startsSeq sep (c :: rest) then
      [] :: pySplitGo sep rest (sep.length - 1)
    else
      match pySplitGo sep rest 0 with
      | [] => [[c]]
      | g :: gs => (c :: g) :: gs

/-- Python `s.split(sep)` on character lists (non-empty `sep`): the maximal
groups between consecutive non-overlapping occurrences of `sep`. -/
def pySplit (sep s : List Char) : List (List Char) := pySplitGo sep s 0

/-- Whether `sep` occurs as a contiguous subsequence of `s`. -/
def occursIn (sep : List Char) : List Char → Bool
  | [] => sep.isEmpty
  | c :: rest => startsSeq sep (c :: rest) || occursIn sep rest

/-- The server name the router extracts for the delete route:
`path.split("/api/delete/")[1]`, `none` modelling an `IndexError`. -/
def extractDeleteName (path : String) : Option String :=
  ((pySplit "/api/delete/".data path.data).map (fun cs => String.mk cs)).get? 1

example : pySplit "X".data "aXbXc".data = ["a".data, "b".data, "c".data] := by decide

example : extractDeleteName "/api/delete/srv1" = some "srv1" := by decide

example : extractDeleteName "/api/delete/a/api/delete/b" = some "a" := by decide

/-- Rendering of the abstract clock tick used where the source calls
`last_report.isoformat()`; the concrete ISO-8601 text is produced by the
Python standard library, outside this repository, so only the mapping
timestamp-to-string is modelled. -/
def isoformat (t : Nat) : String := toString t

/-- One fetched row as the dict `handle_get_inventory` serializes: all five
columns, with `last_report` replaced by its `isoformat` when not `None`. -/
def rowToJson (r : Row) : Json :=
  Json.obj [("name", r.name), ("ip", r.ip), ("location", r.location),
    ("status", r.status),
    ("last_report", match r.last_report with
      | some t => Json.str (isoformat t)
      | none => Json.null)]

/-- The `try:` block of `handle_get_inventory` (lines 171-189): connect,
`SELECT * FROM servers`, convert rows to dicts, fix `last_report`, and the
200 response with the serialized list. -/
def inventoryBody (w : World) : Except PyError (Response × List Row) := do
  let _ ← get_db_connection w.cfg w.connOk
  if !w.execOk then
    Except.error PyError.dbError
  else
    Except.ok (mkJsonResponse 200 (Json.arr (w.db.map rowToJson)), w.db)

/-- `handle_get_inventory`: the try block above with the catch-all except
clause returning the 500 inventory error. -/
def handle_get_inventory (w : World) : Response × List Row :=
  match inventoryBody w with
  | Except.ok r => r
  | Except.error _ =>
      (mkJsonResponse 500 (errPayload "Failed to retrieve inventory."), w.db)

/-- The `try:` block of `handle_delete_server` (lines 205-225): connect,
`DELETE FROM servers WHERE name = %s` with `rowcount`, commit, and the 200
or 404 response depending on whether a row was deleted. -/
def deleteBody (server_name : String) (w : World) :
    Except PyError (Response × List Row) := do
  let _ ← get_db_connection w.cfg w.connOk
  if !w.execOk then
    Except.error PyError.dbError
  else
    let remaining := w.db.filter (fun r => !(r.name == Json.str server_name))
    let rows_deleted := w.db.countP (fun r => r.name == Json.str server_name)
    if rows_deleted > 0 then
      Except.ok (mkJsonResponse 200
        (msgPayload ("Server " ++ server_name ++ " deleted successfully.")), remaining)
    else
      Except.ok (mkJsonResponse 404 (errPayload "Server not found."), remaining)

/-- `handle_delete_server`: the try block above with the catch-all except
clause returning the 500 delete error. -/
def handle_delete_server (server_name : String) (w : World) : Response × List Row :=
  match deleteBody server_name w with
  | Except.ok r => r
  | Except.error _ =>
      (mkJsonResponse 500 (errPayload "Failed to delete server."), w.db)

/-- The `try:` block of `handler` (lines 84-97): the three routes and the 404
fallback. `method` and `path` model `request.method` and
`urlparse(request.url).path`; `body` models the `json.loads` outcome of
`request.body` consumed by `handle_report`. -/
def dispatchBody (method path : String) (body : Option Json) (w : World) :
    Except PyError (Response × List Row) :=
  if path == "/api/report" && method == "POST" then
    Except.ok (handle_report body w)
  else if path == "/api/inventory" && method == "GET" then
    Except.ok (handle_get_inventory w)
  else if pyStartsWith path "/api/delete/" && method == "DELETE" then
    match extractDeleteName path with
    | some server_name => Except.ok (handle_delete_server server_name w)
    | none => Except.error PyError.indexError
  else
    Except.ok (mkJsonResponse 404 (errPayload "Endpoint not found."), w.db)

/-- The `except Exception` clause of `handler` (lines 99-106): any uncaught
failure of the dispatch block becomes the fixed 500 response. -/
def handlerCatch (r : Except PyError (Response × List Row)) (db : List Row) :
    Response × List Row :=
  match r with
  | Except.ok res => res
  | Except.error _ =>
      (mkJsonResponse 500 (errPayload "Internal server error."), db)

/-- `handler`: route the request and convert any uncaught dispatch failure
to the fixed 500 response. -/
def handler (method path : String) (body : Option Json) (w : World) :
    Response × List Row :=
  handlerCatch (dispatchBody method path body w) w.db

example : (handler "GET" "/api/inventory" none
    { cfg := some "postgres://u", connOk := true, execOk := true, now := 0,
      db := [{ name := Json.str "srv1", ip := Json.str "10.0.0.5",
               location := Json.str "Unknown", status := Json.str "Online",
               last_report := some 7 }] }).1 =
    mkJsonResponse 200 (Json.arr [Json.obj [("name", Json.str "srv1"),
      ("ip", Json.str "10.0.0.5"), ("location", Json.str "Unknown"),
      ("status", Json.str "Online"), ("last_report", Json.str "7")]]) := by decide

example : handler "DELETE" "/api/delete/srv1" none
    { cfg := some "postgres://u", connOk := true, execOk := true, now := 0,
      db := [{ name := Json.str "srv1", ip := Json.str "10.0.0.5",
               location := Json.str "Unknown", status := Json.str "Online",
               last_report := some 7 }] } =
    (mkJsonResponse 200 (msgPayload "Server srv1 deleted successfully."), []) := by decide

example : (handler "PUT" "/api/report" none
    { cfg := none, connOk := true, execOk := true, now := 0, db := [] }).1 =
    mkJsonResponse 404 (errPayload "Endpoint not found.") := by decide

theorem startsSeq_append (p t : List Char) : startsSeq p (p ++ t) = true := by
  induction p with
  | nil => rfl
  | cons a as ih => simp [startsSeq, ih]

theorem pySplitGo_skip (sep : List Char) : ∀ (u t : List Char),
    pySplitGo sep (u ++ t) u.length = pySplitGo sep t 0
  | [], _ => rfl
  | c :: u2, t => by
      simp only [List.cons_append, List.length_cons, pySplitGo]
      exact pySplitGo_skip sep u2 t

theorem pySplitGo_ne_nil (sep : List Char) : ∀ (s : List Char) (k : Nat),
    pySplitGo sep s k ≠ []
  | [], _ => by simp [pySplitGo]
  | c :: rest, k + 1 => pySplitGo_ne_nil sep rest k
  | c :: rest, 0 => by
      simp only [pySplitGo]
      split
      · simp
      · split
        · simp
        · simp

theorem pySplitGo_sep_append (sep t : List Char) (h : sep ≠ []) :
    pySplitGo sep (sep ++ t) 0 = [] :: pySplitGo sep t 0 := by
  obtain ⟨a, as, rfl⟩ : ∃ a as, sep = a :: as := by
    cases sep with
    | nil => exact absurd rfl h
    | cons a as => exact ⟨a, as, rfl⟩
  have hpre := startsSeq_append (a :: as) t
  simp only [List.cons_append] at hpre
  simp only [List.cons_append, pySplitGo, List.isEmpty_cons, Bool.not_false, Bool.true_and,
    List.length_cons, Nat.succ_sub_one, List.append_eq]
  rw [if_pos hpre, pySplitGo_skip (a :: as) as t]

theorem pySplitGo_no_occurrence (sep : List Char) : ∀ s : List Char,
    occursIn sep s = false → pySplitGo sep s 0 = [s]
  | [], _ => rfl
  | c :: rest, h => by
      simp only [occursIn, Bool.or_eq_false_iff] at h
      simp only [pySplitGo, h.1, Bool.and_false]
      rw [if_neg (by simp [h.1])]
      rw [pySplitGo_no_occurrence sep rest h.2]

theorem extractDeleteName_of_clean_suffix (rest : String)
    (h : occursIn "/api/delete/".data rest.data = false) :
    extractDeleteName ("/api/delete/" ++ rest) = some rest := by
  have hdata : ("/api/delete/" ++ rest).data = "/api/delete/".data ++ rest.data :=
    String.data_append _ _
  unfold extractDeleteName pySplit
  rw [hdata, pySplitGo_sep_append _ _ (by decide), pySplitGo_no_occurrence _ _ h]
  simp

theorem upsertRow_mem_eq (db : List Row) (r : Row) :
    ∀ x ∈ upsertRow db r, x.name = r.name → x = r := by
  intro x hx hn
  unfold upsertRow at hx
  split at hx
  · obtain ⟨y, hy, rfl⟩ := List.mem_map.mp hx
    by_cases hc : y.name = r.name
    · have hb : (y.name == r.name) = true := beq_iff_eq.mpr hc
      simp only [hb, if_true] at hn ⊢
      cases r
      simp_all
    · have hb : (y.name == r.name) = false := by simp [hc]
      simp only [hb, Bool.false_eq_true, if_false] at hn ⊢
      exact absurd hn hc
  · next hany =>
    rcases List.mem_append.mp hx with hmem | hmem
    · exact absurd ((List.any_eq_true (p := fun z => z.name == r.name)).mpr
        ⟨x, hmem, beq_iff_eq.mpr hn⟩) hany
    · simpa using hmem

theorem upsertRow_mem_untouched (db : List Row) (r : Row) :
    ∀ x ∈ upsertRow db r, x.name ≠ r.name → x ∈ db := by
  intro x hx hn
  unfold upsertRow at hx
  split at hx
  · obtain ⟨y, hy, rfl⟩ := List.mem_map.mp hx
    by_cases hc : y.name = r.name
    · have hb : (y.name == r.name) = true := beq_iff_eq.mpr hc
      simp only [hb, if_true] at hn ⊢
      exact absurd hc hn
    · have hb : (y.name == r.name) = false := by simp [hc]
      simp only [hb, Bool.false_eq_true, if_false] at hn ⊢
      exact hy
  · rcases List.mem_append.mp hx with hmem | hmem
    · exact hmem
    · have hxr : x = r := by simpa using hmem
      exact absurd (hxr ▸ rfl) hn

theorem upsertRow_map_name (db : List Row) (r : Row) :
    (upsertRow db r).map Row.name =
      (if db.any (fun x => x.name == r.name) then db.map Row.name
       else db.map Row.name ++ [r.name]) := by
  unfold upsertRow
  split
  · rw [List.map_map]
    apply List.map_congr_left
    intro x hx
    by_cases hc : x.name = r.name
    · have hb : (x.name == r.name) = true := beq_iff_eq.mpr hc
      simp [Function.comp, hb, hc]
    · have hb : (x.name == r.name) = false := by simp [hc]
      simp [Function.comp, hb]
  · simp

theorem handle_report_success (fields : List (String × Json)) (u : String) (now : Nat)
    (db : List Row) (nameV ipV locV statusV : Json)
    (hname : jsonContains (Json.obj fields) "name" = Except.ok true)
    (hip : jsonContains (Json.obj fields) "ip" = Except.ok true)
    (hnv : jsonSubscript (Json.obj fields) "name" = Except.ok nameV)
    (hiv : jsonSubscript (Json.obj fields) "ip" = Except.ok ipV)
    (hlv : jsonGet (Json.obj fields) "location" (Json.str "Unknown") = Except.ok locV)
    (hsv : jsonGet (Json.obj fields) "status" (Json.str "Online") = Except.ok statusV) :
    handle_report (some (Json.obj fields))
      { cfg := some u, connOk := true, execOk := true, now := now, db := db } =
      (mkJsonResponse 200 (msgPayload ("Server " ++ pyStr nameV ++ " data updated successfully.")),
       upsertRow db { name := nameV, ip := ipV, location := locV, status := statusV,
                      last_report := some now }) := by
  unfold handle_report reportBody
  simp [hname, hip, hnv, hiv, hlv, hsv, get_db_connection, Bind.bind, Except.bind,
    Pure.pure, Except.pure, Functor.map, Except.map]

/-- C1: for every POST /api/report body that parses as a JSON object
containing keys "name" and "ip", with the store reachable and functioning,
the handler performs the single insert-or-on-conflict-update write in which
ip, location, status and last_report are all overwritten to the new values
(location defaulting to "Unknown" and status to "Online" when absent),
name is never changed, and it returns 200 with the success message. -/
theorem C1_report_upserts_and_returns_200 (fields : List (String × Json)) (u : String)
    (now : Nat) (db : List Row) (nameV ipV locV statusV : Json)
    (hname : jsonContains (Json.obj fields) "name" = Except.ok true)
    (hip : jsonContains (Json.obj fields) "ip" = Except.ok true)
    (hnv : jsonSubscript (Json.obj fields) "name" = Except.ok nameV)
    (hiv : jsonSubscript (Json.obj fields) "ip" = Except.ok ipV)
    (hlv : jsonGet (Json.obj fields) "location" (Json.str "Unknown") = Except.ok locV)
    (hsv : jsonGet (Json.obj fields) "status" (Json.str "Online") = Except.ok statusV) :
    handle_report (some (Json.obj fields))
      { cfg := some u, connOk := true, execOk := true, now := now, db := db } =
      (mkJsonResponse 200 (msgPayload ("Server " ++ pyStr nameV ++ " data updated successfully.")),
       upsertRow db { name := nameV, ip := ipV, location := locV, status := statusV,
                      last_report := some now }) ∧
    (∀ x ∈ upsertRow db { name := nameV, ip := ipV, location := locV, status := statusV,
                          last_report := some now }, x.name = nameV →
        x = { name := nameV, ip := ipV, location := locV, status := statusV,
              last_report := some now }) ∧
    (∀ x ∈ upsertRow db { name := nameV, ip := ipV, location := locV, status := statusV,
                          last_report := some now }, x.name ≠ nameV → x ∈ db) ∧
    (upsertRow db { name := nameV, ip := ipV, location := locV, status := statusV,
                    last_report := some now }).map Row.name =
      (if db.any (fun x => x.name == nameV) then db.map Row.name
       else db.map Row.name ++ [nameV]) :=
  ⟨handle_report_success fields u now db nameV ipV locV statusV hname hip hnv hiv hlv hsv,
   upsertRow_mem_eq db _, upsertRow_mem_untouched db _, upsertRow_map_name db _⟩

/-- Witness for C1 at the example payload of the specification. -/
theorem C1_witness :
    handle_report (some (Json.obj [("name", Json.str "srv1"), ("ip", Json.str "10.0.0.5")]))
      { cfg := some "postgres://u", connOk := true, execOk := true, now := 7, db := [] } =
      (mkJsonResponse 200 (msgPayload "Server srv1 data updated successfully."),
       upsertRow [] { name := Json.str "srv1", ip := Json.str "10.0.0.5",
                      location := Json.str "Unknown", status := Json.str "Online",
                      last_report := some 7 }) :=
  (C1_report_upserts_and_returns_200 [("name", Json.str "srv1"), ("ip", Json.str "10.0.0.5")]
    "postgres://u" 7 [] (Json.str "srv1") (Json.str "10.0.0.5") (Json.str "Unknown")
    (Json.str "Online") rfl rfl rfl rfl rfl rfl).1

/-- C2 counterexample: the body `5` parses as JSON and lacks the keys "name"
and "ip", yet the handler returns the generic 500 store-error response (the
membership test raises `TypeError`), not the claimed 400 validation
response. -/
theorem C2_counterexample :
    (handle_report (some (Json.num 5))
        { cfg := some "postgres://u", connOk := true, execOk := true, now := 0, db := [] }).1 =
      mkJsonResponse 500 (errPayload "Failed to update server data due to a database error.") ∧
    mkJsonResponse 500 (errPayload "Failed to update server data due to a database error.") ≠
      mkJsonResponse 400 (errPayload "Missing required fields (name, ip)") := by
  decide

/-- C2 (amended): for every body that parses as JSON on which the required
field membership test evaluates (objects, arrays, strings) and reports
"name" or "ip" absent, the handler returns 400 with the missing-fields error
and touches neither the configuration, the connection, nor the stored
inventory. -/
theorem C2_missing_fields_400 (j : Json) (b1 b2 : Bool) (w : World)
    (h1 : jsonContains j "name" = Except.ok b1)
    (h2 : jsonContains j "ip" = Except.ok b2)
    (hmiss : b1 = false ∨ b2 = false) :
    handle_report (some j) w =
      (mkJsonResponse 400 (errPayload "Missing required fields (name, ip)"), w.db) := by
  unfold handle_report reportBody
  rcases hmiss with h | h <;> subst h <;>
    simp [h1, h2, Bind.bind, Except.bind, Pure.pure, Except.pure]

/-- Witness for the amended C2: a payload with "name" but no "ip". -/
theorem C2_witness :
    handle_report (some (Json.obj [("name", Json.str "a")]))
      { cfg := some "postgres://u", connOk := true, execOk := true, now := 0, db := [] } =
      (mkJsonResponse 400 (errPayload "Missing required fields (name, ip)"), []) :=
  C2_missing_fields_400 (Json.obj [("name", Json.str "a")]) true false
    { cfg := some "postgres://u", connOk := true, execOk := true, now := 0, db := [] }
    rfl rfl (Or.inr rfl)

/-- C3: whenever `json.loads` fails (malformed JSON, or an empty/missing
body), the handler returns 400 with the invalid-payload error and leaves the
inventory unchanged, regardless of the store state. -/
theorem C3_invalid_json_400 (w : World) :
    handle_report none w =
      (mkJsonResponse 400 (errPayload "Invalid JSON payload or missing fields."), w.db) := by
  rfl

/-- C5 counterexample: with `DATABASE_URL` unset, startup table creation
swallows the failure (no fatal configuration error), and a report request is
answered with exactly the same generic 500 store-error body that a runtime
execution failure produces — not a distinct configuration-error surface. -/
theorem C5_counterexample :
    create_servers_table none true true = false ∧
    (handle_report (some (Json.obj [("name", Json.str "srv1"), ("ip", Json.str "10.0.0.5")]))
        { cfg := none, connOk := true, execOk := true, now := 0, db := [] }).1 =
      mkJsonResponse 500 (errPayload "Failed to update server data due to a database error.") ∧
    (handle_report (some (Json.obj [("name", Json.str "srv1"), ("ip", Json.str "10.0.0.5")]))
        { cfg := some "postgres://u", connOk := true, execOk := false, now := 0, db := [] }).1 =
      mkJsonResponse 500 (errPayload "Failed to update server data due to a database error.") := by
  decide

/-- C5 (amended): a missing connection string raises a distinct `ValueError`
inside `get_db_connection`, but it is not fatal: startup table creation
swallows it, and the report handler converts it into the same generic 500
store-error response used for runtime database failures. -/
theorem C5_missing_config_generic_500 (connOk execOk : Bool) (now : Nat) (db : List Row)
    (fields : List (String × Json))
    (h1 : jsonContains (Json.obj fields) "name" = Except.ok true)
    (h2 : jsonContains (Json.obj fields) "ip" = Except.ok true) :
    get_db_connection none connOk = Except.error PyError.valueError ∧
    create_servers_table none connOk execOk = false ∧
    handle_report (some (Json.obj fields))
        { cfg := none, connOk := connOk, execOk := execOk, now := now, db := db } =
      (mkJsonResponse 500 (errPayload "Failed to update server data due to a database error."),
       db) := by
  refine ⟨rfl, rfl, ?_⟩
  unfold handle_report reportBody
  simp [h1, h2, Bind.bind, Except.bind, Pure.pure, Except.pure, get_db_connection]

/-- Witness for the amended C5. -/
theorem C5_witness :
    get_db_connection none true = Except.error PyError.valueError ∧
    create_servers_table none true true = false ∧
    handle_report (some (Json.obj [("name", Json.str "srv1"), ("ip", Json.str "10.0.0.5")]))
        { cfg := none, connOk := true, execOk := true, now := 0, db := [] } =
      (mkJsonResponse 500 (errPayload "Failed to update server data due to a database error."),
       []) :=
  C5_missing_config_generic_500 true true 0 []
    [("name", Json.str "srv1"), ("ip", Json.str "10.0.0.5")] rfl rfl

theorem get_db_connection_error_cases (cfg : Option String) (cn : Bool) (e : PyError)
    (h : get_db_connection cfg cn = Except.error e) :
    e = PyError.valueError ∨ e = PyError.operationalError := by
  unfold get_db_connection at h
  cases cfg with
  | none =>
    injection h with h2
    exact Or.inl h2.symm
  | some u =>
    cases cn with
    | true => simp at h
    | false =>
      simp only [Bool.false_eq_true, if_false] at h
      injection h with h2
      exact Or.inr h2.symm

/-- C10: a body that parses as valid JSON but is not a JSON object can pass
the membership test (arrays and strings containing "name" and "ip"), yet the
handler never returns 200 and never writes: the subscript raises outside the
JSONDecodeError/KeyError branch and the request ends with the generic 500
store-error response, the inventory unchanged. -/
theorem C10_nonobject_500 (j : Json) (w : World)
    (hobj : ∀ fs, j ≠ Json.obj fs)
    (h1 : jsonContains j "name" = Except.ok true)
    (h2 : jsonContains j "ip" = Except.ok true) :
    handle_report (some j) w =
      (mkJsonResponse 500 (errPayload "Failed to update server data due to a database error."),
       w.db) := by
  have hsub : jsonSubscript j "name" = Except.error PyError.typeError := by
    cases j with
    | obj fs => exact absurd rfl (hobj fs)
    | null => simp [jsonContains] at h1
    | bool b => simp [jsonContains] at h1
    | num n => simp [jsonContains] at h1
    | arr xs => rfl
    | str s => rfl
  unfold handle_report reportBody
  simp only [h1, h2, Bind.bind, Except.bind, Pure.pure, Except.pure, Bool.not_true,
    Bool.or_self, Bool.false_eq_true, if_false]
  cases hg : get_db_connection w.cfg w.connOk with
  | error e =>
    rcases get_db_connection_error_cases _ _ _ hg with he | he <;> subst he <;> simp
  | ok u =>
    simp [hsub]

/-- Witness for C10 at the array payload named by the claim. -/
theorem C10_witness :
    handle_report (some (Json.arr [Json.str "name", Json.str "ip"]))
      { cfg := some "postgres://u", connOk := true, execOk := true, now := 0, db := [] } =
      (mkJsonResponse 500 (errPayload "Failed to update server data due to a database error."),
       []) :=
  C10_nonobject_500 (Json.arr [Json.str "name", Json.str "ip"])
    { cfg := some "postgres://u", connOk := true, execOk := true, now := 0, db := [] }
    (fun _ h => Json.noConfusion h) rfl rfl

theorem pyStartsWith_append (pre rest : String) : pyStartsWith (pre ++ rest) pre = true := by
  unfold pyStartsWith
  rw [String.data_append]
  exact startsSeq_append _ _

/-- C4 counterexample: for the path `/api/delete/a/api/delete/b` the literal
remainder after the prefix is `a/api/delete/b`, but the router's
`path.split("/api/delete/")[1]` extracts only `a`, and the dispatcher passes
that truncated segment to the delete handler. -/
theorem C4_counterexample :
    extractDeleteName "/api/delete/a/api/delete/b" = some "a" ∧
    ("/api/delete/" ++ "a/api/delete/b" : String) = "/api/delete/a/api/delete/b" ∧
    ("a" : String) ≠ "a/api/delete/b" ∧
    dispatchBody "DELETE" "/api/delete/a/api/delete/b" none
        { cfg := some "postgres://u", connOk := true, execOk := true, now := 0, db := [] } =
      Except.ok (handle_delete_server "a"
        { cfg := some "postgres://u", connOk := true, execOk := true, now := 0, db := [] }) :=
  ⟨by decide, by decide, by decide, rfl⟩

/-- C4 (amended): for a DELETE on `/api/delete/{name}` whose suffix contains
no further occurrence of `/api/delete/`, the router passes exactly the
literal remainder of the path to the delete handler, which removes precisely
the rows whose primary key equals it verbatim (case-sensitive equality). -/
theorem C4_delete_route_segment (rest : String) (body : Option Json) (w : World)
    (u : String) (now : Nat) (db : List Row)
    (h : occursIn "/api/delete/".data rest.data = false) :
    handler "DELETE" ("/api/delete/" ++ rest) body w = handle_delete_server rest w ∧
    (handle_delete_server rest
        { cfg := some u, connOk := true, execOk := true, now := now, db := db }).2 =
      db.filter (fun r => !(r.name == Json.str rest)) := by
  constructor
  · unfold handler dispatchBody
    have h1 : (("DELETE" : String) == "POST") = false := by decide
    have h2 : (("DELETE" : String) == "GET") = false := by decide
    have h3 : (("DELETE" : String) == "DELETE") = true := by decide
    have h4 : pyStartsWith ("/api/delete/" ++ rest) "/api/delete/" = true :=
      pyStartsWith_append _ _
    simp only [h1, h2, h3, h4, Bool.and_false, Bool.and_true, Bool.false_eq_true, if_false]
    rw [extractDeleteName_of_clean_suffix rest h]
    simp [handlerCatch]
  · unfold handle_delete_server deleteBody
    simp only [get_db_connection, Bind.bind, Except.bind, Pure.pure, Except.pure,
      Bool.not_true, Bool.false_eq_true, if_false, if_true]
    by_cases hp : 0 < db.countP (fun r => r.name == Json.str rest) <;> simp [hp]

/-- Witness for the amended C4 at a clean suffix. -/
theorem C4_witness :
    handler "DELETE" ("/api/delete/" ++ "srv1") none
        { cfg := some "postgres://u", connOk := true, execOk := true, now := 0, db := [] } =
      handle_delete_server "srv1"
        { cfg := some "postgres://u", connOk := true, execOk := true, now := 0, db := [] } ∧
    (handle_delete_server "srv1"
        { cfg := some "postgres://u", connOk := true, execOk := true, now := 0, db := [] }).2 =
      List.filter (fun r => !(r.name == Json.str "srv1")) [] :=
  C4_delete_route_segment "srv1" none
    { cfg := some "postgres://u", connOk := true, execOk := true, now := 0, db := [] }
    "postgres://u" 0 [] (by decide)

/-- C6: the router selects exactly one handler per (method, path) pair —
POST /api/report to the upsert handler, GET /api/inventory to the inventory
handler, DELETE under /api/delete/ to the delete handler with the extracted
segment, everything else to the fixed 404 — and any uncaught dispatch
failure is converted to the fixed 500 internal-error response. -/
theorem C6_router_total (method path : String) (body : Option Json) (w : World) :
    (path = "/api/report" → method = "POST" →
        handler method path body w = handle_report body w) ∧
    (path = "/api/inventory" → method = "GET" →
        handler method path body w = handle_get_inventory w) ∧
    (∀ n, pyStartsWith path "/api/delete/" = true → method = "DELETE" →
        extractDeleteName path = some n →
        handler method path body w = handle_delete_server n w) ∧
    (¬(path = "/api/report" ∧ method = "POST") →
     ¬(path = "/api/inventory" ∧ method = "GET") →
     ¬(pyStartsWith path "/api/delete/" = true ∧ method = "DELETE") →
        handler method path body w =
          (mkJsonResponse 404 (errPayload "Endpoint not found."), w.db)) ∧
    (∀ e : PyError, handlerCatch (Except.error e) w.db =
        (mkJsonResponse 500 (errPayload "Internal server error."), w.db)) := by
  refine ⟨?_, ?_, ?_, ?_, fun e => rfl⟩
  · rintro rfl rfl
    rfl
  · rintro rfl rfl
    rfl
  · intro n hs hm hx
    subst hm
    unfold handler dispatchBody
    have h1 : (("DELETE" : String) == "POST") = false := by decide
    have h2 : (("DELETE" : String) == "GET") = false := by decide
    have h3 : (("DELETE" : String) == "DELETE") = true := by decide
    simp only [h1, h2, h3, hs, Bool.and_false, Bool.and_true, Bool.false_eq_true, if_false,
      if_true]
    rw [hx]
    rfl
  · intro hr hi hd
    unfold handler dispatchBody
    have c1 : ¬((path == "/api/report" && method == "POST") = true) := by
      simpa [Bool.and_eq_true, beq_iff_eq] using hr
    have c2 : ¬((path == "/api/inventory" && method == "GET") = true) := by
      simpa [Bool.and_eq_true, beq_iff_eq] using hi
    have c3 : ¬((pyStartsWith path "/api/delete/" && method == "DELETE") = true) := by
      simpa [Bool.and_eq_true, beq_iff_eq] using hd
    rw [if_neg c1, if_neg c2, if_neg c3]
    rfl

/-- Witness for C6 at one concrete request per route class. -/
theorem C6_witness :
    handler "POST" "/api/report" none
        { cfg := some "postgres://u", connOk := true, execOk := true, now := 0, db := [] } =
      handle_report none
        { cfg := some "postgres://u", connOk := true, execOk := true, now := 0, db := [] } ∧
    handler "GET" "/api/inventory" none
        { cfg := some "postgres://u", connOk := true, execOk := true, now := 0, db := [] } =
      handle_get_inventory
        { cfg := some "postgres://u", connOk := true, execOk := true, now := 0, db := [] } ∧
    handler "DELETE" "/api/delete/srv1" none
        { cfg := some "postgres://u", connOk := true, execOk := true, now := 0, db := [] } =
      handle_delete_server "srv1"
        { cfg := some "postgres://u", connOk := true, execOk := true, now := 0, db := [] } ∧
    handler "GET" "/" none
        { cfg := some "postgres://u", connOk := true, execOk := true, now := 0, db := [] } =
      (mkJsonResponse 404 (errPayload "Endpoint not found."), []) ∧
    handlerCatch (Except.error PyError.indexError) [] =
      (mkJsonResponse 500 (errPayload "Internal server error."), []) := by
  refine ⟨(C6_router_total "POST" "/api/report" none _).1 rfl rfl,
    (C6_router_total "GET" "/api/inventory" none _).2.1 rfl rfl,
    (C6_router_total "DELETE" "/api/delete/srv1" none _).2.2.1 "srv1" (by decide) rfl (by decide),
    (C6_router_total "GET" "/" none _).2.2.2.1 (by decide) (by decide) (by decide),
    (C6_router_total "GET" "/" none
      { cfg := some "postgres://u", connOk := true, execOk := true, now := 0,
        db := [] }).2.2.2.2 PyError.indexError⟩

theorem handle_delete_success_db (server_name u : String) (now : Nat) (db : List Row) :
    (handle_delete_server server_name
        { cfg := some u, connOk := true, execOk := true, now := now, db := db }).2 =
      db.filter (fun r => !(r.name == Json.str server_name)) := by
  unfold handle_delete_server deleteBody
  simp only [get_db_connection, Bind.bind, Except.bind, Pure.pure, Except.pure,
    Bool.not_true, Bool.false_eq_true, if_false, if_true]
  by_cases hp : 0 < db.countP (fun r => r.name == Json.str server_name) <;> simp [hp]

theorem countP_not_name_add (db : List Row) (k : Json) :
    db.countP (fun r => !(r.name == k)) + db.countP (fun r => r.name == k) = db.length := by
  induction db with
  | nil => simp
  | cons a rest ih =>
    rw [List.countP_cons, List.countP_cons]
    cases hpa : a.name == k <;> simp [hpa] <;> omega

theorem countP_name_le_one (db : List Row) (k : Json) (h : (db.map Row.name).Nodup) :
    db.countP (fun r => r.name == k) ≤ 1 := by
  induction db with
  | nil => simp
  | cons a rest ih =>
    simp only [List.map_cons, List.nodup_cons] at h
    rw [List.countP_cons]
    by_cases hc : a.name = k
    · have hb : (a.name == k) = true := beq_iff_eq.mpr hc
      have hz : rest.countP (fun r => r.name == k) = 0 := by
        rw [List.countP_eq_zero]
        intro r hr hb2
        have hrk : r.name = k := beq_iff_eq.mp hb2
        exact h.1 (List.mem_map.mpr ⟨r, hr, by rw [hrk, hc]⟩)
      simp [hb, hz]
    · have hb : (a.name == k) = false := by simp [hc]
      simp only [hb, Bool.false_eq_true, if_false, Nat.add_zero]
      exact ih h.2

theorem deleteBody_fails (server_name : String) (w : World)
    (hfail : w.cfg = none ∨ w.connOk = false ∨ w.execOk = false) :
    ∃ e, deleteBody server_name w = Except.error e := by
  rcases hfail with h | h | h
  · exact ⟨PyError.valueError, by
      unfold deleteBody
      simp [h, get_db_connection, Bind.bind, Except.bind]⟩
  · cases hc : w.cfg with
    | none => exact ⟨PyError.valueError, by
        unfold deleteBody
        simp [hc, get_db_connection, Bind.bind, Except.bind]⟩
    | some u2 => exact ⟨PyError.operationalError, by
        unfold deleteBody
        simp [hc, h, get_db_connection, Bind.bind, Except.bind]⟩
  · cases hg : get_db_connection w.cfg w.connOk with
    | error e => exact ⟨e, by
        unfold deleteBody
        simp [hg, Bind.bind, Except.bind]⟩
    | ok uu => exact ⟨PyError.dbError, by
        unfold deleteBody
        simp [hg, h, Bind.bind, Except.bind]⟩

/-- C7: the delete handler deletes at most one row (the primary key is
unique); with a functioning store it returns 200 with the success message
when a row matched (removing exactly the matching row) and 404 when none
matched; on any store failure (missing configuration, connection failure, or
statement failure) it returns 500 with the delete error and leaves the
table unchanged. -/
theorem C7_delete_outcomes (server_name u : String) (now : Nat) (db : List Row) (w : World)
    (hnodup : (db.map Row.name).Nodup)
    (hfail : w.cfg = none ∨ w.connOk = false ∨ w.execOk = false) :
    db.length ≤ (handle_delete_server server_name
        { cfg := some u, connOk := true, execOk := true, now := now, db := db }).2.length + 1 ∧
    ((∃ r ∈ db, r.name = Json.str server_name) →
      handle_delete_server server_name
          { cfg := some u, connOk := true, execOk := true, now := now, db := db } =
        (mkJsonResponse 200 (msgPayload ("Server " ++ server_name ++ " deleted successfully.")),
         db.filter (fun r => !(r.name == Json.str server_name)))) ∧
    ((∀ r ∈ db, r.name ≠ Json.str server_name) →
      handle_delete_server server_name
          { cfg := some u, connOk := true, execOk := true, now := now, db := db } =
        (mkJsonResponse 404 (errPayload "Server not found."), db)) ∧
    handle_delete_server server_name w =
      (mkJsonResponse 500 (errPayload "Failed to delete server."), w.db) := by
  refine ⟨?_, ?_, ?_, ?_⟩
  · have hcle := countP_name_le_one db (Json.str server_name) hnodup
    rw [handle_delete_success_db server_name u now db]
    have h1 : db.countP (fun r => !(r.name == Json.str server_name)) =
        (db.filter (fun r => !(r.name == Json.str server_name))).length :=
      List.countP_eq_length_filter _ _
    have h2 := countP_not_name_add db (Json.str server_name)
    omega
  · rintro ⟨r, hr, hk⟩
    have hp : 0 < db.countP (fun x => x.name == Json.str server_name) :=
      List.countP_pos_iff.mpr ⟨r, hr, beq_iff_eq.mpr hk⟩
    unfold handle_delete_server deleteBody
    simp [get_db_connection, Bind.bind, Except.bind, Pure.pure, Except.pure, hp]
  · intro hnone
    have hz : db.countP (fun x => x.name == Json.str server_name) = 0 := by
      rw [List.countP_eq_zero]
      intro r hr hb
      exact hnone r hr (beq_iff_eq.mp hb)
    have hfe : db.filter (fun r => !(r.name == Json.str server_name)) = db := by
      rw [List.filter_eq_self]
      intro r hr
      simp [hnone r hr]
    unfold handle_delete_server deleteBody
    simp [get_db_connection, Bind.bind, Except.bind, Pure.pure, Except.pure, hz, hfe]
  · obtain ⟨e, he⟩ := deleteBody_fails server_name w hfail
    unfold handle_delete_server
    rw [he]

/-- Witness for C7 at a one-row table. -/
theorem C7_witness :
    ([{ name := Json.str "srv1", ip := Json.str "10.0.0.5", location := Json.str "Unknown",
        status := Json.str "Online", last_report := some 7 }] : List Row).length ≤
      (handle_delete_server "srv1"
        { cfg := some "postgres://u", connOk := true, execOk := true, now := 0,
          db := [{ name := Json.str "srv1", ip := Json.str "10.0.0.5",
                   location := Json.str "Unknown", status := Json.str "Online",
                   last_report := some 7 }] }).2.length + 1 ∧
    handle_delete_server "srv1"
        { cfg := some "postgres://u", connOk := true, execOk := true, now := 0,
          db := [{ name := Json.str "srv1", ip := Json.str "10.0.0.5",
                   location := Json.str "Unknown", status := Json.str "Online",
                   last_report := some 7 }] } =
      (mkJsonResponse 200 (msgPayload ("Server " ++ "srv1" ++ " deleted successfully.")),
       ([{ name := Json.str "srv1", ip := Json.str "10.0.0.5", location := Json.str "Unknown",
           status := Json.str "Online", last_report := some 7 }] : List Row).filter
         (fun r => !(r.name == Json.str "srv1"))) ∧
    handle_delete_server "other"
        { cfg := some "postgres://u", connOk := true, execOk := true, now := 0,
          db := [{ name := Json.str "srv1", ip := Json.str "10.0.0.5",
                   location := Json.str "Unknown", status := Json.str "Online",
                   last_report := some 7 }] } =
      (mkJsonResponse 404 (errPayload "Server not found."),
       [{ name := Json.str "srv1", ip := Json.str "10.0.0.5", location := Json.str "Unknown",
          status := Json.str "Online", last_report := some 7 }]) ∧
    handle_delete_server "srv1" { cfg := none, connOk := true, execOk := true, now := 0, db := [] } =
      (mkJsonResponse 500 (errPayload "Failed to delete server."), []) :=
  ⟨(C7_delete_outcomes "srv1" "postgres://u" 0
      [{ name := Json.str "srv1", ip := Json.str "10.0.0.5", location := Json.str "Unknown",
         status := Json.str "Online", last_report := some 7 }]
      { cfg := none, connOk := true, execOk := true, now := 0, db := [] }
      (by decide) (Or.inl rfl)).1,
   (C7_delete_outcomes "srv1" "postgres://u" 0
      [{ name := Json.str "srv1", ip := Json.str "10.0.0.5", location := Json.str "Unknown",
         status := Json.str "Online", last_report := some 7 }]
      { cfg := none, connOk := true, execOk := true, now := 0, db := [] }
      (by decide) (Or.inl rfl)).2.1
     ⟨{ name := Json.str "srv1", ip := Json.str "10.0.0.5", location := Json.str "Unknown",
        status := Json.str "Online", last_report := some 7 }, by decide, rfl⟩,
   (C7_delete_outcomes "other" "postgres://u" 0
      [{ name := Json.str "srv1", ip := Json.str "10.0.0.5", location := Json.str "Unknown",
         status := Json.str "Online", last_report := some 7 }]
      { cfg := none, connOk := true, execOk := true, now := 0, db := [] }
      (by decide) (Or.inl rfl)).2.2.1 (by decide),
   (C7_delete_outcomes "srv1" "postgres://u" 0 []
      { cfg := none, connOk := true, execOk := true, now := 0, db := [] }
      (by decide) (Or.inl rfl)).2.2.2⟩

theorem inventoryBody_fails (w : World)
    (hfail : w.cfg = none ∨ w.connOk = false ∨ w.execOk = false) :
    ∃ e, inventoryBody w = Except.error e := by
  rcases hfail with h | h | h
  · exact ⟨PyError.valueError, by
      unfold inventoryBody
      simp [h, get_db_connection, Bind.bind, Except.bind]⟩
  · cases hc : w.cfg with
    | none => exact ⟨PyError.valueError, by
        unfold inventoryBody
        simp [hc, get_db_connection, Bind.bind, Except.bind]⟩
    | some u2 => exact ⟨PyError.operationalError, by
        unfold inventoryBody
        simp [hc, h, get_db_connection, Bind.bind, Except.bind]⟩
  · cases hg : get_db_connection w.cfg w.connOk with
    | error e => exact ⟨e, by
        unfold inventoryBody
        simp [hg, Bind.bind, Except.bind]⟩
    | ok uu => exact ⟨PyError.dbError, by
        unfold inventoryBody
        simp [hg, h, Bind.bind, Except.bind]⟩

/-- C8: with a functioning store, GET /api/inventory returns 200 with the
JSON array of all stored rows (possibly empty), each serialized with
last_report rendered as its string timestamp when present and as null when
absent; on any store failure it returns 500 with the inventory error. -/
theorem C8_inventory_report (u : String) (now : Nat) (db : List Row) (w : World)
    (hfail : w.cfg = none ∨ w.connOk = false ∨ w.execOk = false) :
    handle_get_inventory { cfg := some u, connOk := true, execOk := true, now := now, db := db } =
      (mkJsonResponse 200 (Json.arr (db.map rowToJson)), db) ∧
    (∀ r : Row, ∀ t, r.last_report = some t →
        rowToJson r = Json.obj [("name", r.name), ("ip", r.ip), ("location", r.location),
          ("status", r.status), ("last_report", Json.str (isoformat t))]) ∧
    (∀ r : Row, r.last_report = none →
        rowToJson r = Json.obj [("name", r.name), ("ip", r.ip), ("location", r.location),
          ("status", r.status), ("last_report", Json.null)]) ∧
    handle_get_inventory w =
      (mkJsonResponse 500 (errPayload "Failed to retrieve inventory."), w.db) := by
  refine ⟨?_, ?_, ?_, ?_⟩
  · unfold handle_get_inventory inventoryBody
    simp [get_db_connection, Bind.bind, Except.bind, Pure.pure, Except.pure]
  · intro r t ht
    unfold rowToJson
    rw [ht]
  · intro r ht
    unfold rowToJson
    rw [ht]
  · obtain ⟨e, he⟩ := inventoryBody_fails w hfail
    unfold handle_get_inventory
    rw [he]

/-- Witness for C8 at a one-row table and a failing world. -/
theorem C8_witness :
    handle_get_inventory
        { cfg := some "postgres://u", connOk := true, execOk := true, now := 0,
          db := [{ name := Json.str "srv1", ip := Json.str "10.0.0.5",
                   location := Json.str "Unknown", status := Json.str "Online",
                   last_report := some 7 }] } =
      (mkJsonResponse 200 (Json.arr
        (([{ name := Json.str "srv1", ip := Json.str "10.0.0.5",
             location := Json.str "Unknown", status := Json.str "Online",
             last_report := some 7 }] : List Row).map rowToJson)),
       [{ name := Json.str "srv1", ip := Json.str "10.0.0.5", location := Json.str "Unknown",
          status := Json.str "Online", last_report := some 7 }]) ∧
    rowToJson (Row.mk (Json.str "srv1") (Json.str "10.0.0.5") (Json.str "Unknown")
        (Json.str "Online") (some 7)) =
      Json.obj [("name", Json.str "srv1"), ("ip", Json.str "10.0.0.5"),
        ("location", Json.str "Unknown"), ("status", Json.str "Online"),
        ("last_report", Json.str (isoformat 7))] ∧
    rowToJson (Row.mk (Json.str "srv2") (Json.str "10.0.0.6") (Json.str "Unknown")
        (Json.str "Online") none) =
      Json.obj [("name", Json.str "srv2"), ("ip", Json.str "10.0.0.6"),
        ("location", Json.str "Unknown"), ("status", Json.str "Online"),
        ("last_report", Json.null)] ∧
    handle_get_inventory { cfg := none, connOk := true, execOk := true, now := 0, db := [] } =
      (mkJsonResponse 500 (errPayload "Failed to retrieve inventory."), []) :=
  ⟨(C8_inventory_report "postgres://u" 0
      [{ name := Json.str "srv1", ip := Json.str "10.0.0.5", location := Json.str "Unknown",
         status := Json.str "Online", last_report := some 7 }]
      { cfg := none, connOk := true, execOk := true, now := 0, db := [] } (Or.inl rfl)).1,
   (C8_inventory_report "postgres://u" 0 []
      { cfg := none, connOk := true, execOk := true, now := 0, db := [] } (Or.inl rfl)).2.1
     (Row.mk (Json.str "srv1") (Json.str "10.0.0.5") (Json.str "Unknown")
       (Json.str "Online") (some 7)) 7 rfl,
   (C8_inventory_report "postgres://u" 0 []
      { cfg := none, connOk := true, execOk := true, now := 0, db := [] } (Or.inl rfl)).2.2.1
     (Row.mk (Json.str "srv2") (Json.str "10.0.0.6") (Json.str "Unknown")
       (Json.str "Online") none) rfl,
   (C8_inventory_report "postgres://u" 0 []
      { cfg := none, connOk := true, execOk := true, now := 0, db := [] } (Or.inl rfl)).2.2.2⟩

theorem ok_pair_headers {c : Nat} {p : Json} {y : List Row} {r : Response} {d : List Row}
    (h : (Except.ok (mkJsonResponse c p, y) : Except PyError (Response × List Row)) =
      Except.ok (r, d)) :
    r.headers = [("Content-Type", "application/json")] := by
  injection h with h2
  have h3 : mkJsonResponse c p = r := congrArg Prod.fst h2
  rw [← h3]
  rfl

theorem reportBody_ok_headers (body : Option Json) (w : World) (r : Response) (d : List Row)
    (h : reportBody body w = Except.ok (r, d)) :
    r.headers = [("Content-Type", "application/json")] := by
  unfold reportBody at h
  cases body with
  | none => simp [Bind.bind, Except.bind] at h
  | some j =>
    simp only [Bind.bind, Except.bind, Pure.pure, Except.pure, Functor.map, Except.map] at h
    cases hc1 : jsonContains j "name" with
    | error e1 =>
      simp only [hc1] at h
      exact Except.noConfusion h
    | ok b1 =>
    simp only [hc1] at h
    cases hc2 : jsonContains j "ip" with
    | error e2 =>
      simp only [hc2] at h
      exact Except.noConfusion h
    | ok b2 =>
    simp only [hc2] at h
    by_cases hb : (!b1 || !b2) = true
    · rw [if_pos hb] at h
      exact ok_pair_headers h
    · rw [if_neg hb] at h
      cases hg : get_db_connection w.cfg w.connOk with
      | error eg =>
        simp only [hg] at h
        exact Except.noConfusion h
      | ok ug =>
      simp only [hg] at h
      cases hn : jsonSubscript j "name" with
      | error en =>
        simp only [hn] at h
        exact Except.noConfusion h
      | ok nameV =>
      simp only [hn] at h
      cases hi : jsonSubscript j "ip" with
      | error ei =>
        simp only [hi] at h
        exact Except.noConfusion h
      | ok ipV =>
      simp only [hi] at h
      cases hl : jsonGet j "location" (Json.str "Unknown") with
      | error el =>
        simp only [hl] at h
        exact Except.noConfusion h
      | ok locV =>
      simp only [hl] at h
      cases hs : jsonGet j "status" (Json.str "Online") with
      | error es =>
        simp only [hs] at h
        exact Except.noConfusion h
      | ok stV =>
      simp only [hs] at h
      cases hE : w.execOk with
      | false =>
        simp only [hE, Bool.not_false, if_true] at h
        exact Except.noConfusion h
      | true =>
        simp only [hE, Bool.not_true, Bool.false_eq_true, if_false] at h
        exact ok_pair_headers h

theorem handle_report_headers (body : Option Json) (w : World) :
    (handle_report body w).1.headers = [("Content-Type", "application/json")] := by
  unfold handle_report
  cases hb : reportBody body w with
  | ok rd => exact reportBody_ok_headers body w rd.1 rd.2 (by rw [hb])
  | error e => cases e <;> rfl

theorem inventoryBody_ok_headers (w : World) (r : Response) (d : List Row)
    (h : inventoryBody w = Except.ok (r, d)) :
    r.headers = [("Content-Type", "application/json")] := by
  unfold inventoryBody at h
  simp only [Bind.bind, Except.bind, Pure.pure, Except.pure] at h
  cases hg : get_db_connection w.cfg w.connOk with
  | error eg =>
    simp only [hg] at h
    exact Except.noConfusion h
  | ok ug =>
    simp only [hg] at h
    cases hE : w.execOk with
    | false =>
      simp only [hE, Bool.not_false, if_true] at h
      exact Except.noConfusion h
    | true =>
      simp only [hE, Bool.not_true, Bool.false_eq_true, if_false] at h
      exact ok_pair_headers h

theorem handle_get_inventory_headers (w : World) :
    (handle_get_inventory w).1.headers = [("Content-Type", "application/json")] := by
  unfold handle_get_inventory
  cases hb : inventoryBody w with
  | ok rd => exact inventoryBody_ok_headers w rd.1 rd.2 (by rw [hb])
  | error e => rfl

theorem deleteBody_ok_headers (server_name : String) (w : World) (r : Response) (d : List Row)
    (h : deleteBody server_name w = Except.ok (r, d)) :
    r.headers = [("Content-Type", "application/json")] := by
  unfold deleteBody at h
  simp only [Bind.bind, Except.bind, Pure.pure, Except.pure] at h
  cases hg : get_db_connection w.cfg w.connOk with
  | error eg =>
    simp only [hg] at h
    exact Except.noConfusion h
  | ok ug =>
    simp only [hg] at h
    cases hE : w.execOk with
    | false =>
      simp only [hE, Bool.not_false, if_true] at h
      exact Except.noConfusion h
    | true =>
      simp only [hE, Bool.not_true, Bool.false_eq_true, if_false] at h
      by_cases hp : w.db.countP (fun x => x.name == Json.str server_name) > 0
      · rw [if_pos hp] at h
        exact ok_pair_headers h
      · rw [if_neg hp] at h
        exact ok_pair_headers h

theorem handle_delete_server_headers (server_name : String) (w : World) :
    (handle_delete_server server_name w).1.headers =
      [("Content-Type", "application/json")] := by
  unfold handle_delete_server
  cases hb : deleteBody server_name w with
  | ok rd => exact deleteBody_ok_headers server_name w rd.1 rd.2 (by rw [hb])
  | error e => rfl

/-- C9: every response the system produces — any method, path, body and store
state, including validation failures, store failures, and the router's 404
and 500 fallback paths — is the uniform envelope of a status code, a JSON
body, and the single header Content-Type: application/json; no failure
escapes the envelope. -/
theorem C9_uniform_json_envelope (method path : String) (body : Option Json) (w : World) :
    (handler method path body w).1.headers = [("Content-Type", "application/json")] := by
  unfold handler handlerCatch dispatchBody
  by_cases h1 : (path == "/api/report" && method == "POST") = true
  · rw [if_pos h1]
    exact handle_report_headers body w
  · rw [if_neg h1]
    by_cases h2 : (path == "/api/inventory" && method == "GET") = true
    · rw [if_pos h2]
      exact handle_get_inventory_headers w
    · rw [if_neg h2]
      by_cases h3 : (pyStartsWith path "/api/delete/" && method == "DELETE") = true
      · rw [if_pos h3]
        cases hx : extractDeleteName path with
        | some n => exact handle_delete_server_headers n w
        | none => rfl
      · rw [if_neg h3]
        rfl
